import Mathlib

/-!
Verification development for the PakUni build scripts.

Part 1 embeds `generate_logos.py`, the CSV-to-TypeScript logo-mapping
generator: reading rows, the URL validity filter, Python dict update,
sorting of the `(name, url)` items, and the emitted text lines.

Part 2 embeds `scripts/generate-icons.py`, the icon raster pipeline:
PIL images as pixel grids, `Image.new`, `paste` with a mask,
`ImageDraw.ellipse` circular masks, resizing, and the mipmap loop.
SVG rasterization and Lanczos resampling are kept abstract as
parameters, since their pixel output is outside the model.
-/

/-- One CSV data row: the values of the `university_name` and `logo_url`
columns as handed to the loop body. -/
structure Row where
  university_name : String
  logo_url : String
deriving DecidableEq

/-- Models Python `str.strip()`: drop leading and trailing whitespace
characters (the data only involves the ASCII whitespace recognized by
`Char.isWhitespace`). -/
def pyStrip (s : String) : String :=
  ⟨((s.data.dropWhile Char.isWhitespace).reverse.dropWhile Char.isWhitespace).reverse⟩

/-- Models `re.sub(r'[^a-zA-Z0-9]', '', name)`: keep exactly the ASCII
letters and digits of the name. -/
def sanitize (s : String) : String :=
  ⟨s.data.filter Char.isAlphanum⟩

/-- Helper for the substring test: does `needle` occur inside the list? -/
def hasSubAux (needle : List Char) : List Char → Bool
  | [] => needle.isEmpty
  | c :: t => needle.isPrefixOf (c :: t) || hasSubAux needle t

/-- Models Python's `sub in s` substring containment test on strings. -/
def containsSub (s sub : String) : Bool :=
  hasSubAux sub.data s.data

/-- Models `logo_url = row['logo_url'].strip() if row['logo_url'] else ''`. -/
def normUrl (u : String) : String :=
  if u.isEmpty then "" else pyStrip u

/-- Models the URL filter of the CSV loop:
`logo_url and '#/media' not in logo_url and 'data:image' not in logo_url
and 'Not have' not in logo_url and 'Dangerous' not in logo_url`. -/
def validUrl (u : String) : Bool :=
  !u.isEmpty && !containsSub u "#/media" && !containsSub u "data:image" &&
    !containsSub u "Not have" && !containsSub u "Dangerous"

/-- Python dict update `d[k] = v` on an insertion-ordered association list:
replace the value of an existing key in place, else append at the end. -/
def insertDict : List (String × String) → String → String → List (String × String)
  | [], k, v => [(k, v)]
  | p :: ps, k, v => if p.1 = k then (k, v) :: ps else p :: insertDict ps k v

/-- One iteration of the CSV loop: strip the name, normalize the URL, and
store `universities[name] = logo_url` when the URL passes the filter. -/
def step (d : List (String × String)) (r : Row) : List (String × String) :=
  let name := pyStrip r.university_name
  let url := normUrl r.logo_url
  if validUrl url then insertDict d name url else d

/-- The `universities` dict after the whole CSV loop. -/
def processRows (rows : List Row) : List (String × String) :=
  rows.foldl step []

/-- Code-point lexicographic comparison of character lists: Python's `<`
on strings. -/
def strLt : List Char → List Char → Bool
  | [], [] => false
  | [], _ :: _ => true
  | _ :: _, [] => false
  | a :: as, b :: bs =>
    decide (a.toNat < b.toNat) || (decide (a = b) && strLt as bs)

/-- Python tuple comparison on the `(name, url)` items of the dict. -/
def pairLt (a b : String × String) : Bool :=
  strLt a.1.data b.1.data || (decide (a.1 = b.1) && strLt a.2.data b.2.data)

/-- The non-strict total order induced by `pairLt`; `sorted` arranges the
items so that consecutive ones are related by it. -/
def pairLeRel (a b : String × String) : Prop :=
  pairLt b a = false

instance : DecidableRel pairLeRel := fun a b => by
  unfold pairLeRel; infer_instance

/-- Models `sorted(universities.items())`: a stable sort by the tuple
order (insertion sort is stable and total orders make the result unique). -/
def sortPairs (l : List (String × String)) : List (String × String) :=
  List.insertionSort pairLeRel l

/-- The sorted items the output loop ranges over. -/
def sortedPairs (rows : List Row) : List (String × String) :=
  sortPairs (processRows rows)

/-- The single-quote character used by the emitted TypeScript lines. -/
def sglq : String := String.singleton (Char.ofNat 39)

/-- Models the f-string for one mapping entry line. -/
def entryLine (key url : String) : String :=
  "  " ++ sglq ++ key ++ sglq ++ ": " ++ sglq ++ url ++ sglq ++ ","

/-- The fixed lines appended before the entry loop. -/
def headerLines : List String :=
  ["export const UNIVERSITY_LOGO_MAP: Record<string, string> = \x7b",
   "  // All 257 Pakistani Universities - Logo URLs from Official Sources",
   "  // Updated: January 2026",
   "  // Auto-generated from CSV data",
   ""]

/-- The closing line of the generated mapping. -/
def footerLine : String := "\x7d;"

/-- The full `lines` list of the generator: header, one line per sorted
item with the sanitized key, and the closing delimiter. -/
def generateLines (rows : List Row) : List String :=
  headerLines ++ (sortedPairs rows).map (fun p => entryLine (sanitize p.1) p.2)
    ++ [footerLine]

/-! ### Part 2: the icon generator `scripts/generate-icons.py` -/

/-- An RGBA pixel; `RGB`-mode images carry a constant alpha of 255. -/
structure Pixel where
  r : Nat
  g : Nat
  b : Nat
  a : Nat
deriving DecidableEq

/-- Opaque white, the background color used throughout the script. -/
def whitePix : Pixel := ⟨255, 255, 255, 255⟩

/-- The fully transparent pixel `(0, 0, 0, 0)`. -/
def clearPix : Pixel := ⟨0, 0, 0, 0⟩

/-- The PIL image modes used by the script (the `L` mode appears only as
the separate `Mask` type below). -/
inductive Mode
  | RGB
  | RGBA
deriving DecidableEq

/-- A PIL image: mode, size, and a pixel grid. -/
structure Img where
  mode : Mode
  w : Nat
  h : Nat
  px : Nat → Nat → Pixel

/-- An `L`-mode mask image: one byte per pixel. -/
structure Mask where
  w : Nat
  h : Nat
  px : Nat → Nat → Nat

/-- `Image.new(mode, (w, h), color)`. -/
def newImg (m : Mode) (w h : Nat) (c : Pixel) : Img :=
  ⟨m, w, h, fun _ _ => c⟩

/-- The alpha band of an image, which PIL uses when an RGBA image is
passed as its own `paste` mask. -/
def alphaMask (img : Img) : Mask :=
  ⟨img.w, img.h, fun x y => (img.px x y).a⟩

/-- The per-channel interpolation of PIL's `paste` with a mask; the masks
built by this script are binary, so only `m = 0` and `m = 255` arise. -/
def blendChannel (d s m : Nat) : Nat :=
  (s * m + d * (255 - m)) / 255

/-- Blend a source pixel over a destination pixel under mask value `m`. -/
def blendPix (d s : Pixel) (m : Nat) : Pixel :=
  ⟨blendChannel d.r s.r m, blendChannel d.g s.g m,
   blendChannel d.b s.b m, blendChannel d.a s.a m⟩

/-- `dest.paste(src, (ox, oy), mask)`: inside the pasted window the source
is blended in under the mask (255 when no mask is given); pasting into an
`RGB`-mode image leaves the result fully opaque. -/
def pasteImg (dest src : Img) (ox oy : Nat) (mask : Option Mask) : Img :=
  ⟨dest.mode, dest.w, dest.h, fun x y =>
    if ox ≤ x ∧ x < ox + src.w ∧ oy ≤ y ∧ y < oy + src.h then
      let m := match mask with
        | none => 255
        | some mk => mk.px (x - ox) (y - oy)
      let q := blendPix (dest.px x y) (src.px (x - ox) (y - oy)) m
      match dest.mode with
      | Mode.RGB => ⟨q.r, q.g, q.b, 255⟩
      | Mode.RGBA => q
    else dest.px x y⟩

/-- Pixel-center model of `ImageDraw.ellipse((0, 0, s, s), fill=255)`:
a pixel is inside the disk inscribed in the `s`-by-`s` square iff its
center lies within distance `s / 2` of the square's center. -/
def inDisk (s x y : Nat) : Bool :=
  decide ((2 * (x : Int) + 1 - s) ^ 2 + (2 * (y : Int) + 1 - s) ^ 2 ≤ (s : Int) ^ 2)

/-- The circular mask: `Image.new("L", (s, s), 0)` followed by
`draw.ellipse((0, 0, s, s), fill=255)`. -/
def ellipseMask (s : Nat) : Mask :=
  ⟨s, s, fun x y => if inDisk s x y then 255 else 0⟩

/-- The pixels produced by `cairosvg.svg2png(url, output_width, output_height)`
for a given SVG path; rasterization itself is outside the model, so the
whole pipeline is parameterized by this function. -/
def RenderFn : Type :=
  String → Nat → Nat → Nat → Nat → Pixel

/-- `Image.open(<rendered png>).convert("RGBA")`. -/
def renderSvg (render : RenderFn) (svg : String) (w h : Nat) : Img :=
  ⟨Mode.RGBA, w, h, fun x y => render svg w h x y⟩

/-- The pixels produced by `Image.resize((w, h), Image.LANCZOS)`; the
resampled content is likewise kept abstract. -/
def ResampleFn : Type :=
  Img → Nat → Nat → Nat → Nat → Pixel

/-- `img.resize((w, h), Image.LANCZOS)`: new size, same mode. -/
def resizeImg (resample : ResampleFn) (img : Img) (w h : Nat) : Img :=
  ⟨img.mode, w, h, fun x y => resample img w h x y⟩

/-- Step 3's intermediate render: `pakuni-icon.svg` rasterized at 400x400
(`_temp_icon.png` opened and converted to RGBA). -/
def icon_fg (render : RenderFn) : Img :=
  renderSvg render "pakuni-icon.svg" 400 400

/-- Step 3's white 512x512 canvas with the icon pasted centered at
offset `(512 - 400) // 2`, using the icon itself as mask. -/
def canvas512 (render : RenderFn) : Img :=
  pasteImg (newImg Mode.RGBA 512 512 whitePix) (icon_fg render)
    ((512 - 400) / 2) ((512 - 400) / 2) (some (alphaMask (icon_fg render)))

/-- Step 3's round icon: the canvas pasted into a fresh transparent image
through the circular mask, saved as `pakuni-icon-round.png`. -/
def roundIcon512 (render : RenderFn) : Img :=
  pasteImg (newImg Mode.RGBA 512 512 clearPix) (canvas512 render) 0 0
    (some (ellipseMask 512))

/-- Step 4's `icon_for_store = icon_fg.resize((420, 420), Image.LANCZOS)`. -/
def iconForStore (render : RenderFn) (resample : ResampleFn) : Img :=
  resizeImg resample (icon_fg render) 420 420

/-- Step 4's Play Store icon: opaque white `RGB` 512x512 square with the
resized icon pasted centered at offset `(512 - 420) // 2`. -/
def storeIcon (render : RenderFn) (resample : ResampleFn) : Img :=
  pasteImg (newImg Mode.RGB 512 512 whitePix) (iconForStore render resample)
    ((512 - 420) / 2) ((512 - 420) / 2)
    (some (alphaMask (iconForStore render resample)))

/-- The `MIPMAP_SIZES` table of density tiers. -/
def MIPMAP_SIZES : List (String × Nat) :=
  [("mipmap-mdpi", 48), ("mipmap-hdpi", 72), ("mipmap-xhdpi", 96),
   ("mipmap-xxhdpi", 144), ("mipmap-xxxhdpi", 192)]

/-- `inner_size = int(size * 0.78)`: for the five tier sizes the Python
float computation agrees with the exact `size * 78 / 100`. -/
def innerSize (s : Nat) : Nat := s * 78 / 100

/-- `offset = (size - inner_size) // 2`. -/
def tierOffset (s : Nat) : Nat := (s - innerSize s) / 2

/-- The per-tier render of `pakuni-icon.svg` at the inner size
(`_temp_mipmap.png` opened and converted to RGBA). -/
def tierFg (render : RenderFn) (s : Nat) : Img :=
  renderSvg render "pakuni-icon.svg" (innerSize s) (innerSize s)

/-- The square tier variant `ic_launcher.png`: opaque white `RGB` square
of the full tier size with the icon pasted centered. -/
def tierSquare (render : RenderFn) (s : Nat) : Img :=
  pasteImg (newImg Mode.RGB s s whitePix) (tierFg render s)
    (tierOffset s) (tierOffset s) (some (alphaMask (tierFg render s)))

/-- The round tier variant's canvas: opaque white `RGBA` square of the
full tier size with the icon pasted centered. -/
def tierRoundCanvas (render : RenderFn) (s : Nat) : Img :=
  pasteImg (newImg Mode.RGBA s s whitePix) (tierFg render s)
    (tierOffset s) (tierOffset s) (some (alphaMask (tierFg render s)))

/-- The round tier variant `ic_launcher_round.png`: the canvas pasted into
a fresh transparent image through the circular mask. -/
def tierRound (render : RenderFn) (s : Nat) : Img :=
  pasteImg (newImg Mode.RGBA s s clearPix) (tierRoundCanvas render s) 0 0
    (some (ellipseMask s))

/-- The round tier variant as the specification's words describe it, for
comparison with `tierRound`: the rendered icon composited onto a fully
transparent canvas, then circularly masked. -/
def tierRoundSpecWords (render : RenderFn) (s : Nat) : Img :=
  pasteImg (newImg Mode.RGBA s s clearPix)
    (pasteImg (newImg Mode.RGBA s s clearPix) (tierFg render s)
      (tierOffset s) (tierOffset s) (some (alphaMask (tierFg render s))))
    0 0 (some (ellipseMask s))

/-- One file written by the mipmap loop: destination directory, file
name, image. -/
structure Save where
  dir : String
  file : String
  img : Img

/-- The ten files written by the mipmap loop, in loop order. -/
def mipmapSaves (render : RenderFn) : List Save :=
  MIPMAP_SIZES.flatMap fun p =>
    [⟨p.1, "ic_launcher.png", tierSquare render p.2⟩,
     ⟨p.1, "ic_launcher_round.png", tierRound render p.2⟩]

/-- A concrete rasterizer (a fully transparent render) used to evaluate
the pipeline on closed inputs. -/
def dummyRender : RenderFn := fun _ _ _ _ _ => clearPix

/-- A concrete resampler (opaque white output) used to evaluate the
pipeline on closed inputs. -/
def dummyResample : ResampleFn := fun _ _ _ _ _ => whitePix

/-! ### Part 3: the CSV reading stage and failure behavior -/

/-- The errors the mapping generator can abort with before writing. -/
inductive GenError
  | fileNotFound
  | keyErrorName
  | keyErrorUrl
  | attrErrorName
deriving DecidableEq

/-- The CSV file as `csv.DictReader` presents it: whether each of the two
required columns exists in the header, and per data row the (possibly
missing) values of those columns. -/
structure CsvFile where
  hasNameCol : Bool
  hasUrlCol : Bool
  rows : List (Option String × Option String)

/-- Reading one `DictReader` row inside the loop body:
`row['university_name']` raises `KeyError` when the column is absent,
`.strip()` on a `None` value raises `AttributeError`, and
`row['logo_url']` raises `KeyError` when that column is absent. -/
def readRow (f : CsvFile) (r : Option String × Option String) : Except GenError Row :=
  if f.hasNameCol = false then Except.error GenError.keyErrorName
  else
    match r.1 with
    | none => Except.error GenError.attrErrorName
    | some nm =>
      if f.hasUrlCol = false then Except.error GenError.keyErrorUrl
      else Except.ok ⟨nm, r.2.getD ""⟩

/-- Reading a list of `DictReader` rows in order: the loop aborts at the
first failing row. -/
def readRows (f : CsvFile) : List (Option String × Option String) → Except GenError (List Row)
  | [] => Except.ok []
  | r :: rs =>
    match readRow f r with
    | Except.error e => Except.error e
    | Except.ok row =>
      match readRows f rs with
      | Except.error e => Except.error e
      | Except.ok rows => Except.ok (row :: rows)

/-- Reading the whole CSV. -/
def parseRows (f : CsvFile) : Except GenError (List Row) :=
  readRows f f.rows

/-- `'\n'.join(lines)`: the full text of the output file. -/
def outputContent (rows : List Row) : String :=
  String.intercalate "\n" (generateLines rows)

/-- The whole script run: a missing file aborts at `open`, a failing row
aborts inside the loop, and only a complete run yields the output text. -/
def generate (file : Option CsvFile) : Except GenError String :=
  match file with
  | none => Except.error GenError.fileNotFound
  | some f => (parseRows f).map outputContent

/-- The content of `university_logos_complete.ts` after the run: written
exactly when the run succeeded, since the `open(..., 'w')` is the last
statement of the script. -/
def finalOutput (file : Option CsvFile) : Option String :=
  (generate file).toOption

/-! ### Order lemmas for the sort comparison -/

/-- `Char.toNat` determines the character. -/
theorem charEq_of_toNat {a b : Char} (h : a.toNat = b.toNat) : a = b := by
  have h2 := congrArg Char.ofNat h
  rwa [Char.ofNat_toNat, Char.ofNat_toNat] at h2

/-- `strLt` is irreflexive. -/
theorem strLt_irrefl (l : List Char) : strLt l l = false := by
  induction l with
  | nil => rfl
  | cons a as ih => simp [strLt, ih, Nat.lt_irrefl]

/-- `strLt` is transitive. -/
theorem strLt_trans {x : List Char} :
    ∀ {y z : List Char}, strLt x y = true → strLt y z = true → strLt x z = true := by
  induction x with
  | nil =>
    intro y z hxy hyz
    cases y with
    | nil => simp [strLt] at hxy
    | cons b bs =>
      cases z with
      | nil => simp [strLt] at hyz
      | cons c cs => simp [strLt]
  | cons a as ih =>
    intro y z hxy hyz
    cases y with
    | nil => simp [strLt] at hxy
    | cons b bs =>
      cases z with
      | nil => simp [strLt] at hyz
      | cons c cs =>
        simp only [strLt, Bool.or_eq_true, Bool.and_eq_true, decide_eq_true_eq] at hxy hyz ⊢
        rcases hxy with h1 | ⟨rfl, h1⟩
        · rcases hyz with h2 | ⟨rfl, h2⟩
          · exact Or.inl (Nat.lt_trans h1 h2)
          · exact Or.inl h1
        · rcases hyz with h2 | ⟨rfl, h2⟩
          · exact Or.inl h2
          · exact Or.inr ⟨rfl, ih h1 h2⟩

/-- Two lists neither of which is below the other are equal. -/
theorem strLt_connex {x : List Char} :
    ∀ {y : List Char}, strLt x y = false → strLt y x = false → x = y := by
  induction x with
  | nil =>
    intro y h1 _
    cases y with
    | nil => rfl
    | cons b bs => simp [strLt] at h1
  | cons a as ih =>
    intro y h1 h2
    cases y with
    | nil => simp [strLt] at h2
    | cons b bs =>
      simp only [strLt, Bool.or_eq_false_iff, Bool.and_eq_false_iff,
        decide_eq_false_iff_not, decide_eq_true_eq] at h1 h2
      have hab : a = b := charEq_of_toNat (by omega)
      subst hab
      rcases h1.2 with h1b | h1b
      · exact absurd rfl h1b
      · rcases h2.2 with h2b | h2b
        · exact absurd rfl h2b
        · rw [ih h1b h2b]

/-- `strLt` is asymmetric. -/
theorem strLt_asymm {x y : List Char} (h1 : strLt x y = true) (h2 : strLt y x = true) :
    False := by
  have h3 := strLt_trans h1 h2
  rw [strLt_irrefl] at h3
  exact Bool.false_ne_true h3

/-- The tuple order is asymmetric. -/
theorem pairLt_asymm {a b : String × String} (h1 : pairLt a b = true)
    (h2 : pairLt b a = true) : False := by
  simp only [pairLt, Bool.or_eq_true, Bool.and_eq_true, decide_eq_true_eq] at h1 h2
  rcases h1 with h1 | ⟨e1, h1⟩
  · rcases h2 with h2 | ⟨e2, h2⟩
    · exact strLt_asymm h1 h2
    · rw [e2] at h1; rw [strLt_irrefl] at h1; exact Bool.false_ne_true h1
  · rcases h2 with h2 | ⟨e2, h2⟩
    · rw [e1] at h2; rw [strLt_irrefl] at h2; exact Bool.false_ne_true h2
    · exact strLt_asymm h1 h2

/-- The tuple order is transitive. -/
theorem pairLt_trans {a b c : String × String} (h1 : pairLt a b = true)
    (h2 : pairLt b c = true) : pairLt a c = true := by
  simp only [pairLt, Bool.or_eq_true, Bool.and_eq_true, decide_eq_true_eq] at h1 h2 ⊢
  rcases h1 with h1 | ⟨e1, h1⟩
  · rcases h2 with h2 | ⟨e2, h2⟩
    · exact Or.inl (strLt_trans h1 h2)
    · rw [e2] at h1; exact Or.inl h1
  · rcases h2 with h2 | ⟨e2, h2⟩
    · rw [e1]; exact Or.inl h2
    · exact Or.inr ⟨e1.trans e2, strLt_trans h1 h2⟩

/-- Two pairs neither of which is below the other are equal. -/
theorem pairLt_connex {a b : String × String} (h1 : pairLt a b = false)
    (h2 : pairLt b a = false) : a = b := by
  obtain ⟨⟨n1⟩, ⟨u1⟩⟩ := a
  obtain ⟨⟨n2⟩, ⟨u2⟩⟩ := b
  simp only [pairLt, Bool.or_eq_false_iff, Bool.and_eq_false_iff,
    decide_eq_false_iff_not, decide_eq_true_eq] at h1 h2
  have hn : n1 = n2 := strLt_connex h1.1 h2.1
  subst hn
  rcases h1.2 with h1b | h1b
  · exact absurd rfl h1b
  · rcases h2.2 with h2b | h2b
    · exact absurd rfl h2b
    · rw [strLt_connex h1b h2b]

instance : IsTotal (String × String) pairLeRel :=
  ⟨by
    intro a b
    unfold pairLeRel
    cases h : pairLt b a with
    | false => exact Or.inl rfl
    | true =>
      cases h2 : pairLt a b with
      | false => exact Or.inr rfl
      | true => exact absurd (pairLt_asymm h2 h) id⟩

instance : IsTrans (String × String) pairLeRel :=
  ⟨by
    intro a b c hab hbc
    unfold pairLeRel at hab hbc ⊢
    cases hca : pairLt c a with
    | false => rfl
    | true =>
      cases hbc2 : pairLt b c with
      | false =>
        have hb : b = c := pairLt_connex hbc2 hbc
        rw [hb, hca] at hab
        exact (Bool.false_ne_true hab.symm).elim
      | true =>
        have hba := pairLt_trans hbc2 hca
        rw [hba] at hab
        exact (Bool.false_ne_true hab.symm).elim⟩

/-! ### Key membership of the dict -/

/-- The key set after a Python dict update: the new key together with the
old keys. -/
theorem mem_insertDict_key (d : List (String × String)) (k v k' : String) :
    (∃ u, (k', u) ∈ insertDict d k v) ↔ k' = k ∨ ∃ u, (k', u) ∈ d := by
  induction d with
  | nil => simp [insertDict]
  | cons p ps ih =>
    obtain ⟨p1, p2⟩ := p
    by_cases h : p1 = k
    · subst h
      have hins : insertDict ((p1, p2) :: ps) p1 v = (p1, v) :: ps := by
        simp [insertDict]
      rw [hins]
      constructor
      · rintro ⟨u, hu⟩
        rcases List.mem_cons.mp hu with he | hm
        · exact Or.inl (congrArg Prod.fst he)
        · exact Or.inr ⟨u, List.mem_cons_of_mem _ hm⟩
      · rintro (rfl | ⟨u, hu⟩)
        · exact ⟨v, List.mem_cons_self _ _⟩
        · rcases List.mem_cons.mp hu with he | hm
          · have hk : k' = p1 := congrArg Prod.fst he
            exact ⟨v, hk ▸ List.mem_cons_self _ _⟩
          · exact ⟨u, List.mem_cons_of_mem _ hm⟩
    · have hins : insertDict ((p1, p2) :: ps) k v = (p1, p2) :: insertDict ps k v := by
        simp [insertDict, h]
      rw [hins]
      constructor
      · rintro ⟨u, hu⟩
        rcases List.mem_cons.mp hu with he | hm
        · exact Or.inr ⟨u, List.mem_cons.mpr (Or.inl he)⟩
        · rcases (ih).mp ⟨u, hm⟩ with hk | ⟨u', hu'⟩
          · exact Or.inl hk
          · exact Or.inr ⟨u', List.mem_cons_of_mem _ hu'⟩
      · rintro (rfl | ⟨u, hu⟩)
        · obtain ⟨u', hu'⟩ := (ih).mpr (Or.inl rfl)
          exact ⟨u', List.mem_cons_of_mem _ hu'⟩
        · rcases List.mem_cons.mp hu with he | hm
          · exact ⟨u, List.mem_cons.mpr (Or.inl he)⟩
          · obtain ⟨u', hu'⟩ := (ih).mpr (Or.inr ⟨u, hm⟩)
            exact ⟨u', List.mem_cons_of_mem _ hu'⟩

/-- The key set of the dict built by the CSV loop from an accumulator:
the accumulator's keys together with the stripped names of the rows that
pass the URL filter. -/
theorem mem_foldl_step_key (rows : List Row) :
    ∀ (acc : List (String × String)) (k : String),
    (∃ u, (k, u) ∈ rows.foldl step acc) ↔
      (∃ u, (k, u) ∈ acc) ∨
        ∃ r, r ∈ rows ∧ pyStrip r.university_name = k ∧
          validUrl (normUrl r.logo_url) = true := by
  induction rows with
  | nil => intro acc k; simp
  | cons r rs ih =>
    intro acc k
    rw [List.foldl_cons, ih]
    unfold step
    by_cases h : validUrl (normUrl r.logo_url) = true
    · rw [if_pos h, mem_insertDict_key]
      constructor
      · rintro ((rfl | hacc) | ⟨r', hr', hk, hv⟩)
        · exact Or.inr ⟨r, List.mem_cons_self r rs, rfl, h⟩
        · exact Or.inl hacc
        · exact Or.inr ⟨r', List.mem_cons_of_mem r hr', hk, hv⟩
      · rintro (hacc | ⟨r', hr', hk, hv⟩)
        · exact Or.inl (Or.inr hacc)
        · rcases List.mem_cons.mp hr' with rfl | hr'
          · exact Or.inl (Or.inl hk.symm)
          · exact Or.inr ⟨r', hr', hk, hv⟩
    · rw [if_neg h]
      constructor
      · rintro (hacc | ⟨r', hr', hk, hv⟩)
        · exact Or.inl hacc
        · exact Or.inr ⟨r', List.mem_cons_of_mem r hr', hk, hv⟩
      · rintro (hacc | ⟨r', hr', hk, hv⟩)
        · exact Or.inl hacc
        · rcases List.mem_cons.mp hr' with rfl | hr'
          · exact absurd hv h
          · exact Or.inr ⟨r', hr', hk, hv⟩

/-! ### Sanitization ignores the surrounding strip -/

/-- Dropping a prefix of characters rejected by the filter does not
change the filtered list. -/
theorem filter_dropWhile_eq (p q : Char → Bool) (h : ∀ c, q c = true → p c = false) :
    ∀ l : List Char, (l.dropWhile q).filter p = l.filter p := by
  intro l
  induction l with
  | nil => rfl
  | cons c t ih =>
    by_cases hq : q c = true
    · simp [List.dropWhile_cons, hq, List.filter_cons, h c hq, ih]
    · simp [List.dropWhile_cons, hq]

/-- Whitespace is never alphanumeric. -/
theorem whitespace_not_alphanum (c : Char) (h : c.isWhitespace = true) :
    c.isAlphanum = false := by
  simp only [Char.isWhitespace, Bool.or_eq_true, decide_eq_true_eq] at h
  rcases h with ((rfl | rfl) | rfl) | rfl <;> decide

/-- The sanitized key of a stripped name equals the sanitized key of the
raw name: stripping only removes whitespace, which sanitization removes
anyway. -/
theorem sanitize_pyStrip (s : String) : sanitize (pyStrip s) = sanitize s := by
  show String.mk _ = String.mk _
  apply congrArg String.mk
  show List.filter Char.isAlphanum
      (((s.data.dropWhile Char.isWhitespace).reverse.dropWhile Char.isWhitespace).reverse)
    = s.data.filter Char.isAlphanum
  rw [List.filter_reverse, filter_dropWhile_eq _ _ whitespace_not_alphanum,
    List.filter_reverse, List.reverse_reverse,
    filter_dropWhile_eq _ _ whitespace_not_alphanum]

/-! ### Claim theorems for the mapping generator -/

/-- C1: for every CSV row that passes the URL filter, the key emitted for
that row equals the row's university name with all characters that are
not ASCII letters or digits removed; in particular the name
"Quaid-i-Azam University" with URL "https://example.com/logo.png" yields
the output line "  'QuaidiAzamUniversity': 'https://example.com/logo.png',". -/
theorem C1_emitted_key_is_sanitized_name :
    (∀ (rows : List Row) (r : Row), r ∈ rows →
      validUrl (normUrl r.logo_url) = true →
      ∃ u, entryLine (sanitize r.university_name) u ∈ generateLines rows) ∧
    generateLines [⟨"Quaid-i-Azam University", "https://example.com/logo.png"⟩] =
      headerLines ++
        ["  " ++ sglq ++ "QuaidiAzamUniversity" ++ sglq ++ ": " ++ sglq ++
          "https://example.com/logo.png" ++ sglq ++ ","] ++ [footerLine] := by
  constructor
  · intro rows r hr hv
    obtain ⟨u, hu⟩ := (mem_foldl_step_key rows [] (pyStrip r.university_name)).mpr
      (Or.inr ⟨r, hr, rfl, hv⟩)
    refine ⟨u, ?_⟩
    have hmem : (pyStrip r.university_name, u) ∈ sortedPairs rows := by
      unfold sortedPairs sortPairs processRows
      exact (List.mem_insertionSort pairLeRel).mpr hu
    have hmap := List.mem_map_of_mem
      (fun p : String × String => entryLine (sanitize p.1) p.2) hmem
    simp only [sanitize_pyStrip] at hmap
    unfold generateLines
    exact List.mem_append.mpr (Or.inl (List.mem_append.mpr (Or.inr hmap)))
  · decide

/-- Witness for C1: the general part applied to the singleton row list of
the documented example. -/
theorem C1_witness :
    ∃ u, entryLine (sanitize "Quaid-i-Azam University") u ∈
      generateLines [⟨"Quaid-i-Azam University", "https://example.com/logo.png"⟩] :=
  C1_emitted_key_is_sanitized_name.1
    [⟨"Quaid-i-Azam University", "https://example.com/logo.png"⟩]
    ⟨"Quaid-i-Azam University", "https://example.com/logo.png"⟩
    (by decide) (by decide)

/-- C2: a name is a key of the generated mapping iff some CSV row carries
it (after stripping) and that row's stripped URL is nonempty and contains
none of the four substrings "#/media", "data:image", "Not have",
"Dangerous"; no other field influences inclusion. -/
theorem C2_filter_characterization :
    ∀ (rows : List Row) (k : String),
    (∃ u, (k, u) ∈ processRows rows) ↔
      ∃ r, r ∈ rows ∧ pyStrip r.university_name = k ∧
        normUrl r.logo_url ≠ "" ∧
        containsSub (normUrl r.logo_url) "#/media" = false ∧
        containsSub (normUrl r.logo_url) "data:image" = false ∧
        containsSub (normUrl r.logo_url) "Not have" = false ∧
        containsSub (normUrl r.logo_url) "Dangerous" = false := by
  intro rows k
  unfold processRows
  rw [mem_foldl_step_key]
  have hvalid : ∀ u : String, validUrl u = true ↔
      (u ≠ "" ∧ containsSub u "#/media" = false ∧ containsSub u "data:image" = false ∧
        containsSub u "Not have" = false ∧ containsSub u "Dangerous" = false) := by
    intro u
    unfold validUrl
    simp only [Bool.and_eq_true, Bool.not_eq_true', Bool.eq_false_iff, ne_eq,
      String.isEmpty_iff]
    tauto
  constructor
  · rintro (⟨u, hu⟩ | ⟨r, hr, hk, hv⟩)
    · simp at hu
    · exact ⟨r, hr, hk, (hvalid _).mp hv⟩
  · rintro ⟨r, hr, hk, hv⟩
    exact Or.inr ⟨r, hr, hk, (hvalid _).mpr hv⟩

/-- Witness for C2: a concrete included row. -/
theorem C2_witness :
    ∃ u, ("Alpha University", u) ∈
      processRows [⟨"Alpha University", "https://alpha.example/logo.png"⟩] :=
  (C2_filter_characterization
      [⟨"Alpha University", "https://alpha.example/logo.png"⟩] "Alpha University").mpr
    ⟨⟨"Alpha University", "https://alpha.example/logo.png"⟩,
      by decide, by decide, by decide, by decide, by decide, by decide, by decide⟩

/-- C3: output entries appear in lexicographic order of the original
(pre-sanitization, stripped) name: if the item at position i has a name
strictly below the item at position j, then i comes before j. -/
theorem C3_entries_sorted_by_original_name :
    ∀ (rows : List Row) (i j : Nat) (pi pj : String × String),
      (sortedPairs rows)[i]? = some pi → (sortedPairs rows)[j]? = some pj →
      strLt pi.1.data pj.1.data = true → i < j := by
  intro rows i j pi pj hi hj hlt
  have hs : List.Pairwise pairLeRel (sortedPairs rows) :=
    List.sorted_insertionSort pairLeRel (processRows rows)
  obtain ⟨hilen, hig⟩ := List.getElem?_eq_some_iff.mp hi
  obtain ⟨hjlen, hjg⟩ := List.getElem?_eq_some_iff.mp hj
  by_contra hij
  push_neg at hij
  rcases Nat.eq_or_lt_of_le hij with heq | hlt2
  · subst heq
    rw [hig] at hjg
    rw [hjg] at hlt
    rw [strLt_irrefl] at hlt
    exact Bool.false_ne_true hlt
  · have hrel := (List.pairwise_iff_getElem.mp hs) j i hjlen hilen hlt2
    unfold pairLeRel at hrel
    rw [hig, hjg] at hrel
    have hpt : pairLt pi pj = true := by
      unfold pairLt
      rw [hlt]
      simp
    rw [hpt] at hrel
    exact Bool.false_ne_true hrel.symm

/-- Witness for C3 on a two-row input sorted into the opposite order. -/
theorem C3_witness :
    (sortedPairs [⟨"B University", "https://b.example/l.png"⟩,
                  ⟨"A University", "https://a.example/l.png"⟩])[0]? =
      some ("A University", "https://a.example/l.png") ∧ (0 : Nat) < 1 :=
  ⟨by decide,
    C3_entries_sorted_by_original_name
      [⟨"B University", "https://b.example/l.png"⟩,
       ⟨"A University", "https://a.example/l.png"⟩] 0 1
      ("A University", "https://a.example/l.png")
      ("B University", "https://b.example/l.png")
      (by decide) (by decide) (by decide)⟩

/-- C5: sanitized-key collisions are neither checked nor resolved: the
generator emits one line per retained name, so two distinct retained
names with the same sanitized key yield two separate entry lines with
the same key, the alphabetically later name's line coming last. -/
theorem C5_collisions_not_deduplicated :
    (∀ rows : List Row,
      (generateLines rows).length =
        headerLines.length + (processRows rows).length + 1) ∧
    sanitize "A-B University" = sanitize "AB University" ∧
    "A-B University" ≠ "AB University" ∧
    generateLines [⟨"A-B University", "https://x.example/1.png"⟩,
                   ⟨"AB University", "https://y.example/2.png"⟩] =
      headerLines ++
        [entryLine "ABUniversity" "https://x.example/1.png",
         entryLine "ABUniversity" "https://y.example/2.png"] ++ [footerLine] := by
  refine ⟨?_, by decide, by decide, by decide⟩
  intro rows
  unfold generateLines
  rw [List.length_append, List.length_append, List.length_map]
  have hlen : (sortedPairs rows).length = (processRows rows).length := by
    unfold sortedPairs sortPairs
    exact List.length_insertionSort pairLeRel (processRows rows)
  rw [hlen]
  simp

/-- C9: the URL filter is case-sensitive: rows whose URLs contain only
lowercased variants of the placeholder phrases pass the filter and appear
in the output mapping. -/
theorem C9_filter_case_sensitive :
    containsSub "https://x.example/not have.png" "not have" = true ∧
    validUrl "https://x.example/not have.png" = true ∧
    containsSub "https://y.example/dangerous.png" "dangerous" = true ∧
    validUrl "https://y.example/dangerous.png" = true ∧
    generateLines [⟨"X University", "https://x.example/not have.png"⟩,
                   ⟨"Y University", "https://y.example/dangerous.png"⟩] =
      headerLines ++
        [entryLine "XUniversity" "https://x.example/not have.png",
         entryLine "YUniversity" "https://y.example/dangerous.png"] ++ [footerLine] :=
  ⟨by decide, by decide, by decide, by decide, by decide⟩

/-- C10: a retained row whose name has no alphanumeric characters at all
still produces an output entry, with the empty string as its key; a row
passing the URL filter is never dropped by key sanitization. -/
theorem C10_empty_key_row_kept :
    (∀ r : Row, validUrl (normUrl r.logo_url) = true →
      (generateLines [r]).length = headerLines.length + 2) ∧
    sanitize "- -" = "" ∧
    generateLines [⟨"- -", "https://p.example/logo.png"⟩] =
      headerLines ++ [entryLine "" "https://p.example/logo.png"] ++ [footerLine] := by
  refine ⟨?_, by decide, by decide⟩
  intro r hv
  unfold generateLines
  rw [List.length_append, List.length_append, List.length_map]
  have hlen : (sortedPairs [r]).length = (processRows [r]).length := by
    unfold sortedPairs sortPairs
    exact List.length_insertionSort pairLeRel (processRows [r])
  have hone : processRows [r] = [(pyStrip r.university_name, normUrl r.logo_url)] := by
    unfold processRows
    simp [step, hv, insertDict]
  rw [hlen, hone]
  simp

/-- Witness for C10: the general part applied to the punctuation-only
name row. -/
theorem C10_witness :
    (generateLines [⟨"- -", "https://p.example/logo.png"⟩]).length =
      headerLines.length + 2 :=
  C10_empty_key_row_kept.1 ⟨"- -", "https://p.example/logo.png"⟩ (by decide)

/-- Unfolding `generate` on a present file. -/
theorem generate_some (cf : CsvFile) :
    generate (some cf) = Except.map outputContent (parseRows cf) := rfl

/-- C4: the output file is written only after the whole CSV has been read
and all lines generated: a run is all-or-nothing, and in particular a
missing CSV file, a missing `university_name` column, or a missing
`logo_url` column (with at least one data row) produces no output at all. -/
theorem C4_no_partial_output :
    (∀ file : Option CsvFile,
      finalOutput file = none ∨
        ∃ cf rows, file = some cf ∧ parseRows cf = Except.ok rows ∧
          finalOutput file = some (outputContent rows)) ∧
    finalOutput none = none ∧
    (∀ (cf : CsvFile) (r : Option String × Option String) rs,
      cf.hasNameCol = false → cf.rows = r :: rs →
      finalOutput (some cf) = none) ∧
    (∀ (cf : CsvFile) (r : Option String × Option String) rs nm,
      cf.hasUrlCol = false → cf.rows = r :: rs → r.1 = some nm →
      finalOutput (some cf) = none) := by
  refine ⟨?_, rfl, ?_, ?_⟩
  · intro file
    cases file with
    | none => exact Or.inl rfl
    | some cf =>
      cases hp : parseRows cf with
      | error e =>
        left
        unfold finalOutput
        rw [generate_some, hp]
        rfl
      | ok rows =>
        right
        refine ⟨cf, rows, rfl, hp, ?_⟩
        unfold finalOutput
        rw [generate_some, hp]
        rfl
  · intro cf r rs hcol hrows
    unfold finalOutput
    rw [generate_some]
    unfold parseRows
    rw [hrows]
    unfold readRows readRow
    rw [hcol]
    simp
    rfl
  · intro cf r rs nm hcol hrows hval
    unfold finalOutput
    rw [generate_some]
    unfold parseRows
    rw [hrows]
    unfold readRows readRow
    rw [hval, hcol]
    cases hn : cf.hasNameCol <;> simp <;> rfl

/-- Witness for C4: a CSV whose header lacks `university_name`. -/
theorem C4_witness :
    finalOutput (some ⟨false, true,
      [(some "A University", some "https://a.example/logo.png")]⟩) = none :=
  C4_no_partial_output.2.2.1
    ⟨false, true, [(some "A University", some "https://a.example/logo.png")]⟩
    (some "A University", some "https://a.example/logo.png") [] rfl rfl

/-! ### Pixel lemmas for the paste operation -/

/-- Blending with full mask opacity yields the source channel. -/
theorem blendChannel_full (d s : Nat) : blendChannel d s 255 = s := by
  show (s * 255 + d * (255 - 255)) / 255 = s
  rw [Nat.sub_self, Nat.mul_zero, Nat.add_zero, Nat.mul_div_cancel s (by norm_num)]

/-- Blending with zero mask opacity yields the destination channel. -/
theorem blendChannel_zero (d s : Nat) : blendChannel d s 0 = d := by
  show (s * 0 + d * (255 - 0)) / 255 = d
  rw [Nat.mul_zero, Nat.zero_add, Nat.sub_zero, Nat.mul_div_cancel d (by norm_num)]

/-- Blending a pixel with full mask opacity yields the source pixel. -/
theorem blendPix_full (d s : Pixel) : blendPix d s 255 = s := by
  unfold blendPix
  rw [blendChannel_full, blendChannel_full, blendChannel_full, blendChannel_full]

/-- Blending a pixel with zero mask opacity yields the destination pixel. -/
theorem blendPix_zero (d s : Pixel) : blendPix d s 0 = d := by
  unfold blendPix
  rw [blendChannel_zero, blendChannel_zero, blendChannel_zero, blendChannel_zero]

/-- `paste` leaves every pixel outside the pasted window unchanged. -/
theorem pasteImg_px_outside (dest src : Img) (ox oy : Nat) (mask : Option Mask)
    (x y : Nat) (h : x < ox ∨ ox + src.w ≤ x ∨ y < oy ∨ oy + src.h ≤ y) :
    (pasteImg dest src ox oy mask).px x y = dest.px x y := by
  have hc : ¬(ox ≤ x ∧ x < ox + src.w ∧ oy ≤ y ∧ y < oy + src.h) := by omega
  simp only [pasteImg]
  rw [if_neg hc]

/-- `paste` inside the pasted window: the blended pixel, made opaque for
an `RGB` destination. -/
theorem pasteImg_px_inside (dest src : Img) (ox oy : Nat) (mk : Mask) (x y : Nat)
    (h1 : ox ≤ x) (h2 : x < ox + src.w) (h3 : oy ≤ y) (h4 : y < oy + src.h) :
    (pasteImg dest src ox oy (some mk)).px x y =
      match dest.mode with
      | Mode.RGB =>
        ⟨(blendPix (dest.px x y) (src.px (x - ox) (y - oy)) (mk.px (x - ox) (y - oy))).r,
         (blendPix (dest.px x y) (src.px (x - ox) (y - oy)) (mk.px (x - ox) (y - oy))).g,
         (blendPix (dest.px x y) (src.px (x - ox) (y - oy)) (mk.px (x - ox) (y - oy))).b,
         255⟩
      | Mode.RGBA =>
        blendPix (dest.px x y) (src.px (x - ox) (y - oy)) (mk.px (x - ox) (y - oy)) := by
  simp only [pasteImg]
  rw [if_pos ⟨h1, h2, h3, h4⟩]

/-! ### Claim theorems for the icon generator -/

/-- C6 counterexample: the claim says the store icon resizes the 400x400
intermediate render to a smaller fixed size, but the resize target is
420x420, which is not smaller than the intermediate render. -/
theorem C6_counterexample :
    ¬ ((iconForStore dummyRender dummyResample).w < (icon_fg dummyRender).w ∧
       (iconForStore dummyRender dummyResample).h < (icon_fg dummyRender).h) := by
  decide

/-- C6 (amended): the store icon is produced by resizing the same 400x400
intermediate render to the larger fixed size 420x420 (still smaller than
the 512x512 canvas), compositing it centered (offset 46 on each side)
onto an opaque white 512x512 RGB square with no alpha channel: every
pixel is fully opaque, pixels outside the centered window are white, and
inside the window a fully opaque source pixel is copied with alpha 255. -/
theorem C6_store_icon_geometry (render : RenderFn) (resample : ResampleFn) :
    (iconForStore render resample).w = 420 ∧
    (iconForStore render resample).h = 420 ∧
    (icon_fg render).w < (iconForStore render resample).w ∧
    (iconForStore render resample).w < (storeIcon render resample).w ∧
    (storeIcon render resample).mode = Mode.RGB ∧
    (storeIcon render resample).w = 512 ∧
    (storeIcon render resample).h = 512 ∧
    46 + 420 + 46 = 512 ∧
    (∀ x y : Nat, ((storeIcon render resample).px x y).a = 255) ∧
    (∀ x y : Nat, (x < 46 ∨ 466 ≤ x ∨ y < 46 ∨ 466 ≤ y) →
      (storeIcon render resample).px x y = whitePix) ∧
    (∀ x y : Nat, 46 ≤ x → x < 466 → 46 ≤ y → y < 466 →
      ((iconForStore render resample).px (x - 46) (y - 46)).a = 255 →
      (storeIcon render resample).px x y =
        ⟨((iconForStore render resample).px (x - 46) (y - 46)).r,
         ((iconForStore render resample).px (x - 46) (y - 46)).g,
         ((iconForStore render resample).px (x - 46) (y - 46)).b, 255⟩) := by
  have hwhite : ∀ x y : Nat, (x < 46 ∨ 466 ≤ x ∨ y < 46 ∨ 466 ≤ y) →
      (storeIcon render resample).px x y = whitePix := by
    intro x y h
    unfold storeIcon
    rw [pasteImg_px_outside]
    · rfl
    · show x < 46 ∨ 46 + 420 ≤ x ∨ y < 46 ∨ 46 + 420 ≤ y
      omega
  have hinside : ∀ x y : Nat, 46 ≤ x → x < 466 → 46 ≤ y → y < 466 →
      ((iconForStore render resample).px (x - 46) (y - 46)).a = 255 →
      (storeIcon render resample).px x y =
        ⟨((iconForStore render resample).px (x - 46) (y - 46)).r,
         ((iconForStore render resample).px (x - 46) (y - 46)).g,
         ((iconForStore render resample).px (x - 46) (y - 46)).b, 255⟩ := by
    intro x y h1 h2 h3 h4 ha
    unfold storeIcon
    rw [pasteImg_px_inside]
    · show Pixel.mk _ _ _ 255 = _
      have hm : (alphaMask (iconForStore render resample)).px (x - 46) (y - 46) =
          ((iconForStore render resample).px (x - 46) (y - 46)).a := rfl
      rw [hm, ha, blendPix_full]
    · exact h1
    · show x < 46 + 420
      omega
    · exact h3
    · show y < 46 + 420
      omega
  refine ⟨rfl, rfl, by show (400 : Nat) < 420; norm_num,
    by show (420 : Nat) < 512; norm_num, rfl, rfl, rfl, by norm_num, ?_, hwhite, hinside⟩
  intro x y
  by_cases hin : 46 ≤ x ∧ x < 466 ∧ 46 ≤ y ∧ y < 466
  · obtain ⟨h1, h2, h3, h4⟩ := hin
    unfold storeIcon
    rw [pasteImg_px_inside]
    · rfl
    · exact h1
    · show x < 46 + 420
      omega
    · exact h3
    · show y < 46 + 420
      omega
  · rw [hwhite x y (by omega)]
    rfl

/-- Witness for C6 at a concrete corner pixel of the white margin. -/
theorem C6_witness :
    (storeIcon dummyRender dummyResample).px 0 0 = whitePix :=
  (C6_store_icon_geometry dummyRender dummyResample).2.2.2.2.2.2.2.2.2.1 0 0
    (Or.inl (by norm_num))

/-- The round tier variant pixel-by-pixel: inside the inscribed disk it
equals the white-background canvas, outside it is fully transparent. -/
theorem tierRound_px (render : RenderFn) (s x y : Nat) (hx : x < s) (hy : y < s) :
    (tierRound render s).px x y =
      if inDisk s x y then (tierRoundCanvas render s).px x y else clearPix := by
  unfold tierRound
  rw [pasteImg_px_inside (newImg Mode.RGBA s s clearPix) (tierRoundCanvas render s)
      0 0 (ellipseMask s) x y (Nat.zero_le x) (by show x < 0 + s; omega)
      (Nat.zero_le y) (by show y < 0 + s; omega)]
  show blendPix ((newImg Mode.RGBA s s clearPix).px x y)
      ((tierRoundCanvas render s).px (x - 0) (y - 0))
      ((ellipseMask s).px (x - 0) (y - 0)) = _
  have hmk : (ellipseMask s).px (x - 0) (y - 0) =
      if inDisk s x y then 255 else 0 := by
    show (if inDisk s (x - 0) (y - 0) then (255 : Nat) else 0) = _
    rw [Nat.sub_zero, Nat.sub_zero]
  rw [hmk]
  by_cases hd : inDisk s x y
  · rw [if_pos hd, if_pos hd, blendPix_full]
    show (tierRoundCanvas render s).px (x - 0) (y - 0) = _
    rw [Nat.sub_zero, Nat.sub_zero]
  · rw [if_neg hd, if_neg hd, blendPix_zero]
    rfl

/-- C8 counterexample: the claim composites the icon onto a transparent
canvas before masking, but the code uses an opaque white canvas: with a
fully transparent rendered icon, the code's round tier pixel inside the
disk is opaque white while the claim's construction gives a fully
transparent pixel. -/
theorem C8_counterexample :
    ((tierRound dummyRender 48).px 24 24).a = 255 ∧
    ((tierRoundSpecWords dummyRender 48).px 24 24).a = 0 ∧
    (tierRound dummyRender 48).px 24 24 ≠ (tierRoundSpecWords dummyRender 48).px 24 24 := by
  refine ⟨?_, ?_, ?_⟩ <;> decide

/-- C8 (amended): the round tier variant is produced by compositing the
rendered icon onto an opaque white canvas (not a transparent one) and
then pasting the result into a fresh transparent image through a circular
alpha mask that is fully opaque inside the disk inscribed in the square
and transparent outside it: outside the disk the result is fully
transparent, inside it equals the white-background composite, and inside
the disk but outside the icon window it is opaque white. -/
theorem C8_round_tier_masked (render : RenderFn) (s x y : Nat)
    (hx : x < s) (hy : y < s) :
    (inDisk s x y = false → (tierRound render s).px x y = clearPix) ∧
    (inDisk s x y = true →
      (tierRound render s).px x y = (tierRoundCanvas render s).px x y) ∧
    (inDisk s x y = true →
      (x < tierOffset s ∨ tierOffset s + innerSize s ≤ x ∨
        y < tierOffset s ∨ tierOffset s + innerSize s ≤ y) →
      (tierRound render s).px x y = whitePix) := by
  refine ⟨?_, ?_, ?_⟩
  · intro hd
    rw [tierRound_px render s x y hx hy, if_neg (by rw [hd]; exact Bool.false_ne_true)]
  · intro hd
    rw [tierRound_px render s x y hx hy, if_pos hd]
  · intro hd houts
    rw [tierRound_px render s x y hx hy, if_pos hd]
    unfold tierRoundCanvas
    rw [pasteImg_px_outside (newImg Mode.RGBA s s whitePix) (tierFg render s)
        (tierOffset s) (tierOffset s) (some (alphaMask (tierFg render s))) x y houts]
    rfl

/-- Witness for C8 at a transparent corner pixel of the smallest tier. -/
theorem C8_witness :
    (tierRound dummyRender 48).px 0 0 = clearPix :=
  (C8_round_tier_masked dummyRender 48 0 0 (by norm_num) (by norm_num)).1 (by decide)

/-- C7: for each of the five density tiers {48, 72, 96, 144, 192} the
loop writes exactly two files (square and round) into the tier-named
directory, both of the full tier size; the icon is rendered at an inner
size of floor(0.78 * size) (concretely [37, 56, 74, 112, 149]) and pasted
centered at offset (size - inner) div 2 (concretely [5, 8, 11, 16, 21])
in both variants, pixels outside the centered window being the white
canvas in both composites. -/
theorem C7_mipmap_tiers (render : RenderFn) :
    (MIPMAP_SIZES.map fun p => innerSize p.2) = [37, 56, 74, 112, 149] ∧
    (MIPMAP_SIZES.map fun p => tierOffset p.2) = [5, 8, 11, 16, 21] ∧
    (∀ p : String × Nat, p ∈ MIPMAP_SIZES →
      ((mipmapSaves render).filter fun e => e.dir == p.1) =
        [⟨p.1, "ic_launcher.png", tierSquare render p.2⟩,
         ⟨p.1, "ic_launcher_round.png", tierRound render p.2⟩]) ∧
    (∀ s : Nat,
      (tierSquare render s).w = s ∧ (tierSquare render s).h = s ∧
      (tierRound render s).w = s ∧ (tierRound render s).h = s ∧
      (tierFg render s).w = innerSize s ∧ (tierFg render s).h = innerSize s ∧
      innerSize s = s * 78 / 100 ∧ tierOffset s = (s - innerSize s) / 2) ∧
    (∀ s x y : Nat,
      (x < tierOffset s ∨ tierOffset s + innerSize s ≤ x ∨
        y < tierOffset s ∨ tierOffset s + innerSize s ≤ y) →
      (tierSquare render s).px x y = whitePix ∧
      (tierRoundCanvas render s).px x y = whitePix) := by
  refine ⟨by decide, by decide, ?_, ?_, ?_⟩
  · intro p hp
    fin_cases hp <;> rfl
  · intro s
    exact ⟨rfl, rfl, rfl, rfl, rfl, rfl, rfl, rfl⟩
  · intro s x y h
    constructor
    · unfold tierSquare
      rw [pasteImg_px_outside (newImg Mode.RGB s s whitePix) (tierFg render s)
          (tierOffset s) (tierOffset s) (some (alphaMask (tierFg render s))) x y h]
      rfl
    · unfold tierRoundCanvas
      rw [pasteImg_px_outside (newImg Mode.RGBA s s whitePix) (tierFg render s)
          (tierOffset s) (tierOffset s) (some (alphaMask (tierFg render s))) x y h]
      rfl

/-- Witness for C7: the two files of the smallest tier. -/
theorem C7_witness :
    ((mipmapSaves dummyRender).filter fun e => e.dir == "mipmap-mdpi") =
      [⟨"mipmap-mdpi", "ic_launcher.png", tierSquare dummyRender 48⟩,
       ⟨"mipmap-mdpi", "ic_launcher_round.png", tierRound dummyRender 48⟩] :=
  (C7_mipmap_tiers dummyRender).2.2.1 ("mipmap-mdpi", 48) (by decide)
